import Mathlib

/-!
Verification of the TradingView stream handler
(`tradingview_scraper/symbols/stream/stream_handler.py`).

The development embeds the module shallowly:

* JSON values that can appear in a protocol parameter list are modelled by
  `JValue`, and Python's `json.dumps(..., separators=(',', ':'))` by
  `json_dumps` (including `ensure_ascii` escaping).
* The framing helpers `construct_message`, `prepend_header`, `create_message`
  are pure string functions, translated directly.
* Effects are made explicit: the websocket transport is an oracle
  `behavior : String → Option PyError` saying whether sending a given frame
  raises, the HTTP collaborator is an oracle `String → HttpResult`, the
  entropy source of `secrets.choice` is a stream `Nat → Fin 26`, and
  `create_connection` is an oracle `String → Option PyError`.
  `send_message` returns the updated handler together with the exception it
  lets escape, and `StreamHandler_init` (the `__init__` method) returns
  `Except PyError StreamHandler`.
-/

/-- Python exceptions relevant to the module.  `send_message` catches exactly
`ConnectionError` and `TimeoutError`; every other exception class is collapsed
into `otherError`. -/
inductive PyError where
  | connectionError
  | timeoutError
  | otherError
deriving DecidableEq, Repr

/-- JSON values that can appear in a `param_list` passed to `json.dumps`
(strings, integers, booleans, `None`, nested lists, dicts). -/
inductive JValue where
  | str (s : String)
  | num (n : Int)
  | bool (b : Bool)
  | null
  | arr (elems : List JValue)
  | obj (pairs : List (String × JValue))

/-- Four lowercase hexadecimal digits, zero padded, as produced by
Python's `'\u{0:04x}'.format n`. -/
def hex4 (n : Nat) : String :=
  let s := String.mk (Nat.toDigits 16 n)
  String.mk (List.replicate (4 - s.length) '0') ++ s

/-- Escaping of a single character inside a JSON string literal, as done by
`json.dumps` with `ensure_ascii=True`: backslash, quote and the named control
characters get two-character escapes, every other character outside the
printable ASCII range `0x20`–`0x7e` becomes a `\uXXXX` escape (a surrogate
pair above `0xFFFF`). -/
def py_json_escape_char (c : Char) : String :=
  if c = '"' then "\\\""
  else if c = '\\' then "\\\\"
  else if c = '\x08' then "\\b"
  else if c = '\x09' then "\\t"
  else if c = '\x0a' then "\\n"
  else if c = '\x0c' then "\\f"
  else if c = '\x0d' then "\\r"
  else if 0x20 ≤ c.toNat ∧ c.toNat ≤ 0x7e then String.mk [c]
  else if c.toNat < 0x10000 then "\\u" ++ hex4 c.toNat
  else
    let n := c.toNat - 0x10000
    "\\u" ++ hex4 (0xd800 + n / 0x400) ++ "\\u" ++ hex4 (0xdc00 + n % 0x400)

/-- Serialization `json.dumps` of a Python string: quoted, each character
escaped. -/
def json_dumps_string (s : String) : String :=
  "\"" ++ String.join (s.data.map py_json_escape_char) ++ "\""

mutual

/-- Serialization `json.dumps(v, separators=(',', ':'))`: compact, no
whitespace around separators; dict keys keep insertion order. -/
def json_dumps : JValue → String
  | .str s => json_dumps_string s
  | .num n => toString n
  | .bool b => if b then "true" else "false"
  | .null => "null"
  | .arr xs => "[" ++ json_dumps_list xs ++ "]"
  | .obj ps => "\x7b" ++ json_dumps_pairs ps ++ "\x7d"

/-- Comma separated serialization of the elements of a JSON array. -/
def json_dumps_list : List JValue → String
  | [] => ""
  | [x] => json_dumps x
  | x :: y :: rest => json_dumps x ++ "," ++ json_dumps_list (y :: rest)

/-- Comma separated serialization of the key/value pairs of a JSON object,
with `:` between key and value. -/
def json_dumps_pairs : List (String × JValue) → String
  | [] => ""
  | [(k, v)] => json_dumps_string k ++ ":" ++ json_dumps v
  | (k, v) :: p :: rest =>
      json_dumps_string k ++ ":" ++ json_dumps v ++ "," ++ json_dumps_pairs (p :: rest)

end

/-- Method `StreamHandler.construct_message`: serialize the two-key dict with
keys `m` (function name) and `p` (parameter list), in that insertion order,
with compact separators — the wire payload for a protocol call. -/
def construct_message (func : String) (param_list : List JValue) : String :=
  json_dumps (.obj [("m", .str func), ("p", .arr param_list)])

/-- Method `StreamHandler.prepend_header`: the wire envelope
`~m~` + decimal length of the payload + `~m~` + payload. -/
def prepend_header (message : String) : String :=
  "~m~" ++ Nat.repr message.length ++ "~m~" ++ message

/-- Method `StreamHandler.create_message`: frame a protocol call. -/
def create_message (func : String) (param_list : List JValue) : String :=
  prepend_header (construct_message func param_list)

/-- Constant `string.ascii_lowercase` from the Python standard library. -/
def ascii_lowercase : String := "abcdefghijklmnopqrstuvwxyz"

/-- One call of `secrets.choice(string.ascii_lowercase)`: the entropy source
yields an index `i` into the 26-letter alphabet and the chosen letter is the
character at that index (the default is never reached since the string has
exactly 26 characters). -/
def secrets_choice_lower (i : Fin 26) : Char :=
  ascii_lowercase.data.getD i.val ' '

/-- Method `StreamHandler.generate_session`: the given prefix followed by 12
characters drawn from the lowercase alphabet, one entropy consumption per
character. -/
def generate_session (choice : Nat → Fin 26) (pre : String) : String :=
  pre ++ String.mk ((List.range 12).map fun k => secrets_choice_lower (choice k))

/-- Outcome of `requests.get` combined with `raise_for_status`: either a
response with an HTTP status code and a body text, or a raised
`requests.RequestException` (network error, timeout, DNS failure, ...). -/
inductive HttpResult where
  | resp (status : Nat) (text : String)
  | exn

/-- Literal part of the regular expression `"auth_token":"(.+?)"`. -/
def auth_token_literal : List Char := '"' :: "auth_token".data ++ ['"', ':', '"']

/-- Lazy completion of the capture group `(.+?)` followed by `"`, with at
least one character already captured (held reversed in `acc`): stop at the
first following `"`; fail on a newline (`.` does not match `\n`) or at end of
input. -/
def capture_rest (acc : List Char) : List Char → Option String
  | [] => none
  | c :: cs =>
      if c = '"' then some (String.mk acc.reverse)
      else if c = '\n' then none
      else capture_rest (c :: acc) cs

/-- Attempt of the pattern suffix `(.+?)"` at a fixed position: the capture
group must consume at least one (non-newline) character, then the shortest
completion ending at a `"` wins. -/
def match_capture : List Char → Option String
  | [] => none
  | c :: cs => if c = '\n' then none else capture_rest [c] cs

/-- Search `re.search(r'"auth_token":"(.+?)"', text)`, returning the first
capture group: try each start position from the left; at a position the
literal must match there and the lazy capture must complete. -/
def re_search_auth_token : List Char → Option String
  | [] => none
  | c :: cs =>
      match
        (if auth_token_literal.isPrefixOf (c :: cs) then
          match_capture (List.drop auth_token_literal.length (c :: cs))
        else none) with
      | some r => some r
      | none => re_search_auth_token cs

/-- Method `StreamHandler._get_auth_token`: issue the HTTP GET with the
`sessionid` cookie; `raise_for_status` raises `requests.HTTPError` exactly for
status codes 400–599; any `requests.RequestException` (from the GET or from
`raise_for_status`) is caught, logged and turned into `none`; on a
non-raising status the token is extracted from the body by the regex. -/
def _get_auth_token (http : String → HttpResult) (session_id : String) : Option String :=
  match http session_id with
  | .exn => none
  | .resp status text =>
      if 400 ≤ status ∧ status < 600 then none
      else re_search_auth_token text.data

/-- Token resolution logic at the top of `StreamHandler.__init__`: start from
the sentinel; if `session_id` is truthy (present and non-empty), use the
resolved token when one is found, otherwise log and keep the sentinel. -/
def resolve_auth_token (http : String → HttpResult) (session_id : Option String) : String :=
  match session_id with
  | none => "unauthorized_user_token"
  | some sid =>
      if sid = "" then "unauthorized_user_token"
      else
        match _get_auth_token http sid with
        | some token => token
        | none => "unauthorized_user_token"

/-- Fixed connection headers built in `StreamHandler.__init__` and passed to
`create_connection`. -/
def request_header_value : List (String × String) :=
  [("Accept-Encoding", "gzip, deflate, br, zstd"),
   ("Accept-Language", "en-US,en;q=0.9,fa;q=0.8"),
   ("Cache-Control", "no-cache"),
   ("Connection", "Upgrade"),
   ("Host", "data.tradingview.com"),
   ("Origin", "https://www.tradingview.com"),
   ("Pragma", "no-cache"),
   ("Sec-WebSocket-Extensions", "permessage-deflate; client_max_window_bits"),
   ("Upgrade", "websocket"),
   ("User-Agent",
    "Mozilla/5.0 (Windows NT 6.3; Win64; x64) AppleWebKit/537.36 (KHTML, like Gecko) Chrome/107.0.0.0 Safari/537.36")]

/-- State of the websocket connection: the trace of frames passed to
`ws.send`, and whether the connection was closed (no code path of the module
ever closes it). -/
structure WsState where
  sent : List String
  closed : Bool
deriving Repr, DecidableEq

/-- State of a `StreamHandler` instance.  `quote_session` and `chart_session`
are `Option`s because the Python attributes only come into existence at the
end of `_initialize`. -/
structure StreamHandler where
  request_header : List (String × String)
  ws : WsState
  quote_session : Option String
  chart_session : Option String
deriving Repr, DecidableEq

/-- Effect of `try: ... except (ConnectionError, TimeoutError): log` around a
call that may raise: `ConnectionError` and `TimeoutError` are swallowed, any
other exception escapes. -/
def catch_conn_timeout : Option PyError → Option PyError
  | none => none
  | some .connectionError => none
  | some .timeoutError => none
  | some .otherError => some .otherError

/-- Method `StreamHandler.send_message`: frame the call, hand the frame to
`ws.send` (recorded in the trace), and swallow `ConnectionError` and
`TimeoutError` raised by the send — no retry, no close.  The second component
is the exception escaping to the caller, if any. -/
def send_message (behavior : String → Option PyError) (h : StreamHandler)
    (func : String) (args : List JValue) : StreamHandler × Option PyError :=
  let message := create_message func args
  ({ h with ws := { h.ws with sent := h.ws.sent ++ [message] } },
   catch_conn_timeout (behavior message))

/-- Sequencing of two statements that may raise: the second runs only when
the first did not raise. -/
def and_then (r : StreamHandler × Option PyError)
    (k : StreamHandler → StreamHandler × Option PyError) : StreamHandler × Option PyError :=
  match r with
  | (h, none) => k h
  | (h, some e) => (h, some e)

/-- Fixed list returned by `StreamHandler._get_quote_fields`. -/
def _get_quote_fields : List String :=
  ["ch", "chp", "current_session", "description", "local_description",
   "language", "exchange", "fractional", "is_tradable", "lp",
   "lp_time", "minmov", "minmove2", "original_name", "pricescale",
   "pro_name", "short_name", "type", "update_mode", "volume",
   "currency_code", "rchp", "rtc"]

/-- Method `StreamHandler._initialize_sessions`: the six setup messages, in
source order. -/
def _initialize_sessions (behavior : String → Option PyError) (h : StreamHandler)
    (quote_session chart_session auth_token : String) : StreamHandler × Option PyError :=
  and_then (send_message behavior h "set_auth_token" [.str auth_token]) fun h =>
  and_then (send_message behavior h "set_locale" [.str "en", .str "US"]) fun h =>
  and_then (send_message behavior h "chart_create_session" [.str chart_session, .str ""]) fun h =>
  and_then (send_message behavior h "quote_create_session" [.str quote_session]) fun h =>
  and_then (send_message behavior h "quote_set_fields"
      (.str quote_session :: _get_quote_fields.map .str)) fun h =>
  send_message behavior h "quote_hibernate_all" [.str quote_session]

/-- Method `StreamHandler._initialize`: generate the two session identifiers
(the quote session consumes the first 12 entropy indices, the chart session
the next 12), run the setup sequence, then store the identifiers on the
handler. -/
def _initialize (behavior : String → Option PyError) (entropy : Nat → Fin 26)
    (h : StreamHandler) (auth_token : String) : StreamHandler × Option PyError :=
  let quote_session := generate_session entropy "qs_"
  let chart_session := generate_session (fun k => entropy (12 + k)) "cs_"
  and_then (_initialize_sessions behavior h quote_session chart_session auth_token) fun h =>
    ({ h with quote_session := some quote_session, chart_session := some chart_session }, none)

/-- Method `StreamHandler.__init__`: resolve the auth token (never failing),
build the fixed headers, open the websocket connection (a raised exception
propagates and construction fails), then run `_initialize`; an exception
escaping `_initialize` also fails construction. -/
def StreamHandler_init (http : String → HttpResult) (connect : String → Option PyError)
    (behavior : String → Option PyError) (entropy : Nat → Fin 26)
    (websocket_url : String) (session_id : Option String) : Except PyError StreamHandler :=
  let auth_token := resolve_auth_token http session_id
  match connect websocket_url with
  | some e => .error e
  | none =>
      let h : StreamHandler :=
        { request_header := request_header_value
          ws := { sent := [], closed := false }
          quote_session := none
          chart_session := none }
      match _initialize behavior entropy h auth_token with
      | (h, none) => .ok h
      | (_, some e) => .error e

/-- Handler state right after `create_connection` succeeds, before
`_initialize` runs: fixed headers, empty send trace, open connection, no
session attributes yet. -/
def fresh_handler : StreamHandler :=
  { request_header := request_header_value
    ws := { sent := [], closed := false }
    quote_session := none
    chart_session := none }

/-- Sequence of `send_message` calls for a list of protocol calls, used to
reason uniformly about the straight-line body of `_initialize_sessions`. -/
def send_all (behavior : String → Option PyError) (h : StreamHandler) :
    List (String × List JValue) → StreamHandler × Option PyError
  | [] => (h, none)
  | (f, a) :: rest => and_then (send_message behavior h f a) fun h => send_all behavior h rest

/-- Concrete HTTP collaborator whose GET always raises a network error. -/
def http_exn : String → HttpResult := fun _ => HttpResult.exn

/-- Concrete transport whose connection always opens. -/
def connect_ok : String → Option PyError := fun _ => none

/-- Concrete transport whose sends always succeed. -/
def send_ok : String → Option PyError := fun _ => none

/-- Concrete entropy stream that always yields index 0 (the letter a). -/
def entropy0 : Nat → Fin 26 := fun _ => 0

/-- Concrete construction run: failing token endpoint, healthy transport, no
session credential. -/
def init0 : Except PyError StreamHandler :=
  StreamHandler_init http_exn connect_ok send_ok entropy0 "wss://example" none

/-- Handler produced by the concrete construction run `init0`. -/
def h0 : StreamHandler := init0.toOption.getD fresh_handler

/-- Claim C2: for every function name and every parameter list, the framed
message equals the marker, the decimal length of the JSON payload, the
marker again, then the payload — so the embedded length field equals the
character length of the serialized payload. -/
theorem create_message_length_law (func : String) (param_list : List JValue) :
    create_message func param_list =
      "~m~" ++ Nat.repr (construct_message func param_list).length ++ "~m~" ++
        construct_message func param_list := rfl

/-- Claim C5, counterexample: framing `set_locale ["en","US"]` does not yield
the string with length field 35 stated by the claim. -/
theorem create_message_set_locale_ne_35 :
    create_message "set_locale" [.str "en", .str "US"] ≠
      "~m~35~m~\x7b\"m\":\"set_locale\",\"p\":[\"en\",\"US\"]\x7d" := by decide

/-- Claim C5, amended: framing `set_locale ["en","US"]` yields exactly
`~m~34~m~` followed by the compact JSON payload, whose character count is 34
(not 35), with no spaces in the JSON. -/
theorem create_message_set_locale_eq :
    create_message "set_locale" [.str "en", .str "US"] =
      "~m~34~m~\x7b\"m\":\"set_locale\",\"p\":[\"en\",\"US\"]\x7d" ∧
    (construct_message "set_locale" [.str "en", .str "US"]).length = 34 := by
  constructor <;> decide

/-- Claim C8: for every function name and parameter list, the serialized
payload is the compact JSON object with exactly the keys `m` (holding the
serialized function name) and `p` (holding the serialized parameter array),
in that fixed order, with no whitespace around separators; being a function
of its inputs, the serialization is deterministic. -/
theorem construct_message_two_keys (func : String) (param_list : List JValue) :
    construct_message func param_list =
      "\x7b\"m\":" ++ json_dumps_string func ++ ",\"p\":" ++
        json_dumps (.arr param_list) ++ "\x7d" := by
  simp only [construct_message, json_dumps, json_dumps_pairs]
  apply String.ext
  simp [String.data_append, List.append_assoc, json_dumps_string, py_json_escape_char]

/-- Every letter picked by `secrets.choice(string.ascii_lowercase)` is a
lowercase Latin letter. -/
theorem secrets_choice_lower_in_range :
    ∀ i : Fin 26, 'a' ≤ secrets_choice_lower i ∧ secrets_choice_lower i ≤ 'z' := by
  decide

/-- Claim C6: for every entropy stream and every prefix string, the generated
session identifier has length `len(prefix) + 12`, its first `len(prefix)`
characters are exactly the prefix, and its 12-character suffix consists only
of lowercase Latin letters. -/
theorem generate_session_shape (choice : Nat → Fin 26) (pre : String) :
    (generate_session choice pre).length = pre.length + 12 ∧
    (generate_session choice pre).data.take pre.length = pre.data ∧
    ((generate_session choice pre).data.drop pre.length).length = 12 ∧
    ∀ c ∈ (generate_session choice pre).data.drop pre.length, 'a' ≤ c ∧ c ≤ 'z' := by
  have hdata : (generate_session choice pre).data =
      pre.data ++ (List.range 12).map fun k => secrets_choice_lower (choice k) :=
    String.data_append _ _
  have hlen : pre.length = pre.data.length := rfl
  refine ⟨?_, ?_, ?_, ?_⟩
  · show (generate_session choice pre).data.length = pre.length + 12
    rw [hdata, List.length_append, List.length_map, List.length_range, hlen]
  · rw [hdata, hlen, List.take_left]
  · rw [hdata, hlen, List.drop_left, List.length_map, List.length_range]
  · intro c hc
    rw [hdata, hlen, List.drop_left] at hc
    rcases List.mem_map.mp hc with ⟨k, _, hk⟩
    exact hk ▸ secrets_choice_lower_in_range (choice k)

/-- Claim C10: for every transport behavior, handler state, function name and
argument list — whether the send succeeds or its error is swallowed —
`send_message` leaves `quote_session`, `chart_session` and `request_header`
unchanged. -/
theorem send_message_preserves_fields (behavior : String → Option PyError)
    (h : StreamHandler) (func : String) (args : List JValue) :
    (send_message behavior h func args).1.quote_session = h.quote_session ∧
    (send_message behavior h func args).1.chart_session = h.chart_session ∧
    (send_message behavior h func args).1.request_header = h.request_header :=
  ⟨rfl, rfl, rfl⟩

/-- Claim C4, counterexample: on a transport whose send raises an exception
that is neither `ConnectionError` nor `TimeoutError`, `send_message` does
propagate the exception to its caller. -/
theorem send_message_propagates_other :
    (send_message (fun _ => some PyError.otherError) fresh_handler "ping" []).2 ≠ none := by
  decide

/-- Claim C4, amended: when the transport send raises `ConnectionError` or
`TimeoutError`, `send_message` propagates nothing to its caller, the frame was
handed to the transport exactly once (no retry), and the connection is not
closed; exceptions of other classes escape. -/
theorem send_message_swallows_conn_timeout (behavior : String → Option PyError)
    (h : StreamHandler) (func : String) (args : List JValue)
    (he : behavior (create_message func args) = some PyError.connectionError ∨
          behavior (create_message func args) = some PyError.timeoutError) :
    (send_message behavior h func args).2 = none ∧
    (send_message behavior h func args).1.ws.sent = h.ws.sent ++ [create_message func args] ∧
    (send_message behavior h func args).1.ws.closed = h.ws.closed := by
  refine ⟨?_, rfl, rfl⟩
  rcases he with he | he <;> simp [send_message, he, catch_conn_timeout]

/-- Witness for claim C4's amended theorem at a concrete failing transport. -/
theorem send_message_swallows_conn_timeout_witness :
    (send_message (fun _ => some PyError.connectionError) fresh_handler "ping" []).2 = none ∧
    (send_message (fun _ => some PyError.connectionError) fresh_handler "ping" []).1.ws.sent =
      fresh_handler.ws.sent ++ [create_message "ping" []] ∧
    (send_message (fun _ => some PyError.connectionError) fresh_handler "ping" []).1.ws.closed =
      fresh_handler.ws.closed :=
  send_message_swallows_conn_timeout _ fresh_handler "ping" [] (Or.inl rfl)

/-- Statement sequencing with a trailing no-op is the statement itself. -/
theorem and_then_id (r : StreamHandler × Option PyError) :
    and_then r (fun h => (h, none)) = r := by
  obtain ⟨a, b⟩ := r
  cases b <;> rfl

/-- Catching `ConnectionError` and `TimeoutError` yields no escaping
exception whenever the raised exception is not of another class. -/
theorem catch_of_ne_other (o : Option PyError) (ho : o ≠ some PyError.otherError) :
    catch_conn_timeout o = none := by
  match o with
  | none => rfl
  | some .connectionError => rfl
  | some .timeoutError => rfl
  | some .otherError => exact absurd rfl ho

/-- Body of `_initialize_sessions` as a `send_all` over the six setup
calls. -/
theorem _initialize_sessions_eq_send_all (behavior : String → Option PyError)
    (h : StreamHandler) (qs cs tok : String) :
    _initialize_sessions behavior h qs cs tok =
      send_all behavior h
        [("set_auth_token", [.str tok]),
         ("set_locale", [.str "en", .str "US"]),
         ("chart_create_session", [.str cs, .str ""]),
         ("quote_create_session", [.str qs]),
         ("quote_set_fields", .str qs :: _get_quote_fields.map .str),
         ("quote_hibernate_all", [.str qs])] := by
  simp [_initialize_sessions, send_all, and_then_id]

/-- When a `send_all` chain finishes without an escaping exception, the send
trace grew by exactly the frames of its calls, in order. -/
theorem send_all_ok (behavior : String → Option PyError)
    (msgs : List (String × List JValue)) (h H : StreamHandler)
    (hok : send_all behavior h msgs = (H, none)) :
    H.ws.sent = h.ws.sent ++ msgs.map fun fa => create_message fa.1 fa.2 := by
  induction msgs generalizing h with
  | nil =>
      simp [send_all, Prod.ext_iff] at hok
      subst hok
      simp
  | cons fa rest ih =>
      obtain ⟨f, a⟩ := fa
      simp only [send_all, send_message] at hok
      cases hcat : catch_conn_timeout (behavior (create_message f a)) with
      | some e =>
          rw [hcat] at hok
          simp [and_then] at hok
      | none =>
          rw [hcat] at hok
          simp only [and_then] at hok
          rw [ih _ hok]
          simp

/-- When no send raises an exception outside the caught classes, a `send_all`
chain runs to the end, appends every frame to the trace, and lets no
exception escape. -/
theorem send_all_no_other (behavior : String → Option PyError)
    (hb : ∀ m, behavior m ≠ some PyError.otherError)
    (msgs : List (String × List JValue)) (h : StreamHandler) :
    send_all behavior h msgs =
      ({ h with ws := { h.ws with
          sent := h.ws.sent ++ msgs.map fun fa => create_message fa.1 fa.2 } }, none) := by
  induction msgs generalizing h with
  | nil => simp [send_all]
  | cons fa rest ih =>
      obtain ⟨f, a⟩ := fa
      simp only [send_all, send_message]
      rw [catch_of_ne_other _ (hb _)]
      simp only [and_then]
      rw [ih]
      simp

/-- Inversion of a successful construction: the send trace of the resulting
handler consists of the six framed setup messages, in source order. -/
theorem init_ok_sent (http : String → HttpResult) (connect : String → Option PyError)
    (behavior : String → Option PyError) (entropy : Nat → Fin 26)
    (url : String) (sid : Option String) (h : StreamHandler)
    (hok : StreamHandler_init http connect behavior entropy url sid = .ok h) :
    h.ws.sent =
      [create_message "set_auth_token" [.str (resolve_auth_token http sid)],
       create_message "set_locale" [.str "en", .str "US"],
       create_message "chart_create_session"
         [.str (generate_session (fun k => entropy (12 + k)) "cs_"), .str ""],
       create_message "quote_create_session" [.str (generate_session entropy "qs_")],
       create_message "quote_set_fields"
         (.str (generate_session entropy "qs_") :: _get_quote_fields.map .str),
       create_message "quote_hibernate_all" [.str (generate_session entropy "qs_")]] := by
  cases hc : connect url with
  | some e => simp [StreamHandler_init, hc] at hok
  | none =>
      simp only [StreamHandler_init, _initialize, hc] at hok
      rw [_initialize_sessions_eq_send_all] at hok
      rcases hs : send_all behavior
          { request_header := request_header_value, ws := { sent := [], closed := false },
            quote_session := none, chart_session := none }
          [("set_auth_token", [.str (resolve_auth_token http sid)]),
           ("set_locale", [.str "en", .str "US"]),
           ("chart_create_session",
             [.str (generate_session (fun k => entropy (12 + k)) "cs_"), .str ""]),
           ("quote_create_session", [.str (generate_session entropy "qs_")]),
           ("quote_set_fields",
             .str (generate_session entropy "qs_") :: _get_quote_fields.map .str),
           ("quote_hibernate_all", [.str (generate_session entropy "qs_")])] with ⟨H, o⟩
      rw [hs] at hok
      cases o with
      | some e => simp [and_then] at hok
      | none =>
          have hH := send_all_ok _ _ _ _ hs
          simp only [and_then] at hok
          injection hok with hinj
          subst hinj
          show H.ws.sent = _
          rw [hH]
          simp

/-- Claim C1: every successful construction sends exactly six framed messages
over the transport, in the exact order `set_auth_token` (resolved token),
`set_locale` (en, US), `chart_create_session` (chart session, empty string),
`quote_create_session` (quote session), `quote_set_fields` (quote session
followed by the 23 fixed field names), `quote_hibernate_all` (quote
session). -/
theorem init_sends_exactly_six (http : String → HttpResult) (connect : String → Option PyError)
    (behavior : String → Option PyError) (entropy : Nat → Fin 26)
    (url : String) (sid : Option String) (h : StreamHandler)
    (hok : StreamHandler_init http connect behavior entropy url sid = .ok h) :
    h.ws.sent.length = 6 ∧
    h.ws.sent =
      [create_message "set_auth_token" [.str (resolve_auth_token http sid)],
       create_message "set_locale" [.str "en", .str "US"],
       create_message "chart_create_session"
         [.str (generate_session (fun k => entropy (12 + k)) "cs_"), .str ""],
       create_message "quote_create_session" [.str (generate_session entropy "qs_")],
       create_message "quote_set_fields"
         (.str (generate_session entropy "qs_") ::
           ["ch", "chp", "current_session", "description", "local_description",
            "language", "exchange", "fractional", "is_tradable", "lp",
            "lp_time", "minmov", "minmove2", "original_name", "pricescale",
            "pro_name", "short_name", "type", "update_mode", "volume",
            "currency_code", "rchp", "rtc"].map .str),
       create_message "quote_hibernate_all" [.str (generate_session entropy "qs_")]] := by
  have hs := init_ok_sent http connect behavior entropy url sid h hok
  exact ⟨by rw [hs]; rfl, by rw [hs]; rfl⟩

/-- Witness for claim C1 on a concrete successful construction run. -/
theorem init_sends_exactly_six_witness :
    h0.ws.sent.length = 6 ∧
    h0.ws.sent =
      [create_message "set_auth_token" [.str (resolve_auth_token http_exn none)],
       create_message "set_locale" [.str "en", .str "US"],
       create_message "chart_create_session"
         [.str (generate_session (fun k => entropy0 (12 + k)) "cs_"), .str ""],
       create_message "quote_create_session" [.str (generate_session entropy0 "qs_")],
       create_message "quote_set_fields"
         (.str (generate_session entropy0 "qs_") ::
           ["ch", "chp", "current_session", "description", "local_description",
            "language", "exchange", "fractional", "is_tradable", "lp",
            "lp_time", "minmov", "minmove2", "original_name", "pricescale",
            "pro_name", "short_name", "type", "update_mode", "volume",
            "currency_code", "rchp", "rtc"].map .str),
       create_message "quote_hibernate_all" [.str (generate_session entropy0 "qs_")]] :=
  init_sends_exactly_six http_exn connect_ok send_ok entropy0 "wss://example" none h0 rfl

/-- Claim C3: constructed without a session credential, the auth token used
is the literal sentinel, and the first message sent over the transport is
`set_auth_token` with exactly that sentinel as its parameter list. -/
theorem init_unauthorized_first (http : String → HttpResult) (connect : String → Option PyError)
    (behavior : String → Option PyError) (entropy : Nat → Fin 26)
    (url : String) (h : StreamHandler)
    (hok : StreamHandler_init http connect behavior entropy url none = .ok h) :
    resolve_auth_token http none = "unauthorized_user_token" ∧
    h.ws.sent.head? =
      some (create_message "set_auth_token" [.str "unauthorized_user_token"]) := by
  refine ⟨rfl, ?_⟩
  rw [init_ok_sent http connect behavior entropy url none h hok]
  rfl

/-- Witness for claim C3 on a concrete successful construction run. -/
theorem init_unauthorized_first_witness :
    resolve_auth_token http_exn none = "unauthorized_user_token" ∧
    h0.ws.sent.head? =
      some (create_message "set_auth_token" [.str "unauthorized_user_token"]) :=
  init_unauthorized_first http_exn connect_ok send_ok entropy0 "wss://example" h0 rfl

/-- Claim C9: an exception raised while opening the transport connection
propagates to the caller of the constructor, while token resolution — over an
arbitrary, possibly failing, HTTP collaborator — never causes construction to
fail: with the connection open and no send raising an uncaught exception
class, construction succeeds for every `http` oracle. -/
theorem init_error_propagation (http : String → HttpResult) (connect : String → Option PyError)
    (behavior : String → Option PyError) (entropy : Nat → Fin 26)
    (url : String) (sid : Option String) :
    (∀ e, connect url = some e →
      StreamHandler_init http connect behavior entropy url sid = .error e) ∧
    (connect url = none → (∀ m, behavior m ≠ some PyError.otherError) →
      ∃ h, StreamHandler_init http connect behavior entropy url sid = .ok h) := by
  constructor
  · intro e he
    simp [StreamHandler_init, he]
  · intro hc hb
    simp only [StreamHandler_init, _initialize, hc]
    rw [_initialize_sessions_eq_send_all, send_all_no_other behavior hb]
    exact ⟨_, rfl⟩

/-- Witness for claim C9: a concrete failing connect propagates its error; a
concrete healthy transport with a failing token endpoint still constructs. -/
theorem init_error_propagation_witness :
    StreamHandler_init http_exn (fun _ => some PyError.connectionError) send_ok entropy0
      "wss://example" none = .error PyError.connectionError ∧
    ∃ h, StreamHandler_init http_exn connect_ok send_ok entropy0 "wss://example" none =
      .ok h :=
  ⟨(init_error_propagation http_exn (fun _ => some PyError.connectionError) send_ok entropy0
      "wss://example" none).1 PyError.connectionError rfl,
   (init_error_propagation http_exn connect_ok send_ok entropy0 "wss://example" none).2
      rfl (fun _ hm => Option.noConfusion hm)⟩

/-- Claim C7, counterexample: a non-2xx status that is below 400 is not
treated as a failure — on a 304 response whose body carries a token literal,
`_get_auth_token` returns that token instead of `none`. -/
theorem get_auth_token_304 :
    _get_auth_token (fun _ => HttpResult.resp 304 "\"auth_token\":\"tok\"") "sid" =
      some "tok" ∧
    _get_auth_token (fun _ => HttpResult.resp 304 "\"auth_token\":\"tok\"") "sid" ≠ none := by
  constructor <;> decide

/-- Claim C7, amended: a raised network exception, or an HTTP status in
400–599, makes `_get_auth_token` return `none` rather than raising; statuses
below 400 proceed to token extraction instead. -/
theorem get_auth_token_failure (http : String → HttpResult) (sid : String)
    (hf : http sid = HttpResult.exn ∨
          ∃ status text, http sid = HttpResult.resp status text ∧
            400 ≤ status ∧ status < 600) :
    _get_auth_token http sid = none := by
  rcases hf with hf | ⟨status, text, hf, h4, h6⟩
  · simp [_get_auth_token, hf]
  · simp [_get_auth_token, hf, h4, h6]

/-- Witness for claim C7's amended theorem at a concrete raising GET. -/
theorem get_auth_token_failure_witness :
    _get_auth_token http_exn "abc" = none :=
  get_auth_token_failure http_exn "abc" (Or.inl rfl)
